import Mathlib

/-!
Verification of the Pulsecal-secureband AI scoring core
(packages/ai-services/app): the model registry/configuration system
(config/model_config.py) and the three scoring engines
(services/signal_quality_service.py, services/anomaly_detection_service.py,
services/risk_scoring_service.py).

Conventions of the embedding:
* Python floats are modelled as exact rationals (ℚ); the sole transcendental
  computation (log10 inside the SNR) is modelled over ℝ, and the two
  irrational primitives that a full pipeline needs (numpy std, log10) are
  passed as explicit function parameters where a pipeline is embedded.
* Python dicts are association lists in insertion order; dict lookup is
  alookup below.
* datetime.utcnow() is modelled by an explicit `now` parameter (the clock
  advance between two utcnow() calls inside one request is abstracted away);
  timedeltas are counted in hours.
* Free-text description strings that interpolate formatted floats are not
  reproduced; structured stand-ins (factor names, fixed sentence constants)
  are kept where a field would otherwise disappear.
-/

/-- Association-list lookup: first binding wins, mirroring Python dict
membership/indexing on insertion-ordered dicts. -/
def alookup {κ α : Type} [DecidableEq κ] (k : κ) : List (κ × α) → Option α
  | [] => none
  | kv :: rest => if kv.1 = k then some kv.2 else alookup k rest

/-- numpy-style mean of a list of rationals: sum / length (0 on []). -/
def qmean (l : List ℚ) : ℚ := l.sum / l.length

/-- numpy diff: consecutive differences x[i+1] - x[i]. -/
def qdiff (l : List ℚ) : List ℚ := List.zipWith (fun a b => b - a) l l.tail

/-- Population variance (numpy var / std squared, ddof = 0). -/
def qvariance (l : List ℚ) : ℚ := qmean (l.map fun x => (x - qmean l) ^ 2)

/-- Mean of consecutive differences, as computed by np.mean(np.diff(x)). -/
def meanDiff (l : List ℚ) : ℚ := qmean (qdiff l)

/-- Clamp a rational into [0, 1]: max(0.0, min(1.0, x)). -/
def clamp01 (x : ℚ) : ℚ := max 0 (min 1 x)

/-- ModelVersion enum from config/model_config.py: fixed model versions. -/
inductive ModelVersion where
  | signalQualityV1
  | anomalyDetectionV1
  | riskScoringV1
deriving DecidableEq, Repr

/-- The string value of each ModelVersion enum member. -/
def ModelVersion.value : ModelVersion → String
  | .signalQualityV1 => "signal-quality-v1.0.0"
  | .anomalyDetectionV1 => "anomaly-detection-v1.0.0"
  | .riskScoringV1 => "risk-scoring-v1.0.0"

/-- ModelMetadata dataclass: metadata for a model version.  The parameters
dict (str -> float) is an insertion-ordered association list. -/
structure ModelMetadata where
  version : ModelVersion
  name : String
  description : String
  createdAt : String
  deterministic : Bool := true
  inferenceOnly : Bool := true
  parameters : List (String × ℚ)

/-- AlertThresholds dataclass with its default field values. -/
structure AlertThresholds where
  HEART_RATE_NORMAL_MIN : ℚ := 60.0
  HEART_RATE_NORMAL_MAX : ℚ := 100.0
  HEART_RATE_WARNING_MIN : ℚ := 50.0
  HEART_RATE_WARNING_MAX : ℚ := 120.0
  HEART_RATE_CRITICAL_MIN : ℚ := 40.0
  HEART_RATE_CRITICAL_MAX : ℚ := 150.0
  TEMPERATURE_NORMAL_MIN : ℚ := 36.1
  TEMPERATURE_NORMAL_MAX : ℚ := 37.2
  TEMPERATURE_WARNING_MIN : ℚ := 35.5
  TEMPERATURE_WARNING_MAX : ℚ := 38.0
  TEMPERATURE_CRITICAL_MIN : ℚ := 34.0
  TEMPERATURE_CRITICAL_MAX : ℚ := 39.5
  OXYGEN_SATURATION_NORMAL_MIN : ℚ := 95.0
  OXYGEN_SATURATION_WARNING_MIN : ℚ := 93.0
  OXYGEN_SATURATION_CRITICAL_MIN : ℚ := 90.0
  BLOOD_PRESSURE_SYSTOLIC_NORMAL_MAX : ℚ := 140.0
  BLOOD_PRESSURE_SYSTOLIC_WARNING_MAX : ℚ := 160.0
  BLOOD_PRESSURE_SYSTOLIC_CRITICAL_MAX : ℚ := 180.0
  BLOOD_PRESSURE_SYSTOLIC_NORMAL_MIN : ℚ := 90.0
  BLOOD_PRESSURE_SYSTOLIC_WARNING_MIN : ℚ := 80.0
  BLOOD_PRESSURE_SYSTOLIC_CRITICAL_MIN : ℚ := 70.0
  BATTERY_WARNING : ℚ := 20.0
  BATTERY_CRITICAL : ℚ := 10.0
  SIGNAL_STRENGTH_WARNING : ℚ := -90.0
  SIGNAL_STRENGTH_CRITICAL : ℚ := -100.0
  Z_SCORE_THRESHOLD : ℚ := 3.0
  TREND_CHANGE_THRESHOLD : ℚ := 0.2
  RISK_SCORE_LOW : ℚ := 0.25
  RISK_SCORE_MODERATE : ℚ := 0.5
  RISK_SCORE_HIGH : ℚ := 0.75
  MIN_CONFIDENCE_FOR_ALERT : ℚ := 0.6
  HIGH_CONFIDENCE_THRESHOLD : ℚ := 0.8
  SIGNAL_QUALITY_GOOD : ℚ := 0.6
  SIGNAL_QUALITY_EXCELLENT : ℚ := 0.8
  SIGNAL_QUALITY_USABLE : ℚ := 0.5

/-- AlertThresholds() with every default, as instantiated by the registry. -/
def defaultAlertThresholds : AlertThresholds := {}

/-- ModelConfig dataclass: complete model configuration. -/
structure ModelConfig where
  version : ModelVersion
  metadata : ModelMetadata
  thresholds : AlertThresholds
  randomSeed : ℕ := 42

/-- The parameters dict of the signal-quality registry entry. -/
def signalQualityParams : List (String × ℚ) :=
  [("snr_weight", 0.3), ("rms_weight", 0.2), ("peak_confidence_weight", 0.2),
   ("baseline_drift_weight", 0.15), ("motion_artifact_weight", 0.15)]

/-- The parameters dict of the anomaly-detection registry entry. -/
def anomalyDetectionParams : List (String × ℚ) :=
  [("z_score_threshold", 3.0), ("trend_window_size", 3),
   ("trend_change_threshold", 0.2)]

/-- The parameters dict of the risk-scoring registry entry. -/
def riskScoringParams : List (String × ℚ) :=
  [("heart_rate_weight", 0.4), ("temperature_weight", 0.3),
   ("oxygen_saturation_weight", 0.3), ("anomaly_weight", 0.3),
   ("signal_quality_weight", 0.1)]

/-- MODEL_REGISTRY: the fixed dict from ModelVersion to ModelConfig. -/
def MODEL_REGISTRY : List (ModelVersion × ModelConfig) :=
  [(.signalQualityV1,
    { version := .signalQualityV1,
      metadata :=
        { version := .signalQualityV1,
          name := "Signal Quality Assessment Model",
          description := "Statistical signal quality assessment using SNR, RMS error, and motion artifact detection",
          createdAt := "2026-01-15",
          deterministic := true,
          inferenceOnly := true,
          parameters := signalQualityParams },
      thresholds := defaultAlertThresholds,
      randomSeed := 42 }),
   (.anomalyDetectionV1,
    { version := .anomalyDetectionV1,
      metadata :=
        { version := .anomalyDetectionV1,
          name := "Anomaly Detection Model",
          description := "Z-score based anomaly detection with trend analysis",
          createdAt := "2026-01-15",
          deterministic := true,
          inferenceOnly := true,
          parameters := anomalyDetectionParams },
      thresholds := defaultAlertThresholds,
      randomSeed := 42 }),
   (.riskScoringV1,
    { version := .riskScoringV1,
      metadata :=
        { version := .riskScoringV1,
          name := "Risk Scoring Model",
          description := "Weighted risk scoring based on vital metrics, anomalies, and trends",
          createdAt := "2026-01-15",
          deterministic := true,
          inferenceOnly := true,
          parameters := riskScoringParams },
      thresholds := defaultAlertThresholds,
      randomSeed := 42 })]

/-- get_model_config: raises ValueError when the version is missing from the
registry, otherwise returns the registry entry. -/
def getModelConfig (version : ModelVersion) : Except String ModelConfig :=
  match alookup version MODEL_REGISTRY with
  | some config => .ok config
  | none => .error ("Model version " ++ version.value ++ " not found in registry")

/-- get_latest_model_version: maps the three known model-type strings to
their versions and raises ValueError otherwise. -/
def getLatestModelVersion (modelType : String) : Except String ModelVersion :=
  if modelType = "signal_quality" then .ok .signalQualityV1
  else if modelType = "anomaly_detection" then .ok .anomalyDetectionV1
  else if modelType = "risk_scoring" then .ok .riskScoringV1
  else .error ("Unknown model type: " ++ modelType)

/-- get_thresholds: composition of get_model_config with the thresholds
field. -/
def getThresholds (version : ModelVersion) : Except String AlertThresholds :=
  match getModelConfig version with
  | .ok config => .ok config.thresholds
  | .error e => .error e

/-- RiskLevel enum from schemas/risk_scoring.py. -/
inductive RiskLevel where
  | low
  | moderate
  | high
  | critical
deriving DecidableEq, Repr

/-- Embeds _determine_risk_level from risk_scoring_service.py: thresholds ladder
mapping an overall risk score to a RiskLevel. -/
def determineRiskLevel (t : AlertThresholds) (riskScore : ℚ) : RiskLevel :=
  if t.RISK_SCORE_HIGH ≤ riskScore then .critical
  else if t.RISK_SCORE_MODERATE ≤ riskScore then .high
  else if t.RISK_SCORE_LOW ≤ riskScore then .moderate
  else .low

/-! ## Risk scoring service (services/risk_scoring_service.py)

The service is constructed from the registry entry for risk-scoring, whose
thresholds are the AlertThresholds defaults and whose parameters are
riskScoringParams. -/

/-- self.params[...] lookup for the risk-scoring service (every key indexed
by the service exists in the registry dict, so the .getD default is inert). -/
def riskParam (k : String) : ℚ := (alookup k riskScoringParams).getD 0

/-- RiskFactors schema record (schemas/risk_scoring.py); the free-text
description and the evidence dict are not modelled. -/
structure RiskFactor where
  factorName : String
  factorScore : ℚ
  weight : ℚ
deriving DecidableEq, Repr

/-- Helper for Python str.title(): uppercase a character that follows a
non-alphabetic one, lowercase the rest. -/
def titleChars : Bool → List Char → List Char
  | _, [] => []
  | prevAlpha, c :: rest =>
      (if prevAlpha then c.toLower else c.toUpper) :: titleChars c.isAlpha rest

/-- Python str.title(). -/
def pyTitle (s : String) : String := String.mk (titleChars false s.toList)

/-- Python s.replace("_", " "). -/
def replaceUnderscores (s : String) : String :=
  String.mk (s.toList.map fun c => if c = '_' then ' ' else c)

/-- Substring test on character lists (Python `sub in s`). -/
def listHasInfix (cs ps : List Char) : Bool :=
  (List.range (cs.length + 1)).any fun i => ((cs.drop i).take ps.length) == ps

/-- Python `pat in s` on strings. -/
def strContains (s pat : String) : Bool := listHasInfix s.toList pat.toList

/-- Python str.lower(). -/
def strLower (s : String) : String := String.mk (s.toList.map Char.toLower)

/-- Embeds _score_heart_rate: four-tier threshold ladder plus trend adjustment,
clamped into [0, 1]. -/
def scoreHeartRate (t : AlertThresholds) (value : ℚ) (trend : Option (List ℚ)) : ℚ :=
  let base : ℚ :=
    if value < t.HEART_RATE_CRITICAL_MIN ∨ t.HEART_RATE_CRITICAL_MAX < value then 0.8
    else if value < t.HEART_RATE_WARNING_MIN ∨ t.HEART_RATE_WARNING_MAX < value then 0.5
    else if value < t.HEART_RATE_NORMAL_MIN ∨ t.HEART_RATE_NORMAL_MAX < value then 0.3
    else 0.1
  let adjusted : ℚ :=
    match trend with
    | some l =>
        if 3 ≤ l.length then
          if 5 < meanDiff l then min 1 (base + 0.2)
          else if meanDiff l < -5 then min 1 (base + 0.15)
          else base
        else base
    | none => base
  clamp01 adjusted

/-- Embeds _score_temperature: same ladder, upward-trend adjustment only. -/
def scoreTemperature (t : AlertThresholds) (value : ℚ) (trend : Option (List ℚ)) : ℚ :=
  let base : ℚ :=
    if value < t.TEMPERATURE_CRITICAL_MIN ∨ t.TEMPERATURE_CRITICAL_MAX < value then 0.8
    else if value < t.TEMPERATURE_WARNING_MIN ∨ t.TEMPERATURE_WARNING_MAX < value then 0.5
    else if value < t.TEMPERATURE_NORMAL_MIN ∨ t.TEMPERATURE_NORMAL_MAX < value then 0.3
    else 0.1
  let adjusted : ℚ :=
    match trend with
    | some l =>
        if 3 ≤ l.length then
          if 0.2 < meanDiff l then min 1 (base + 0.2) else base
        else base
    | none => base
  clamp01 adjusted

/-- Embeds _score_oxygen_saturation: three-tier min-only ladder. -/
def scoreOxygenSaturation (t : AlertThresholds) (value : ℚ) : ℚ :=
  if value < t.OXYGEN_SATURATION_CRITICAL_MIN then 1.0
  else if value < t.OXYGEN_SATURATION_WARNING_MIN then 0.7
  else if value < t.OXYGEN_SATURATION_NORMAL_MIN then 0.4
  else 0.1

/-- historical_trends.get(key, []) if historical_trends else None
(an empty trends dict is falsy in Python). -/
def vitalTrend (historicalTrends : Option (List (String × List ℚ))) (key : String) :
    Option (List ℚ) :=
  match historicalTrends with
  | some (p :: ps) => some ((alookup key (p :: ps)).getD [])
  | _ => none

/-- The temperature RiskFactors record of _analyze_vital_metrics. -/
def temperatureFactor (t : AlertThresholds) (value : ℚ)
    (historicalTrends : Option (List (String × List ℚ))) (key : String) : RiskFactor :=
  { factorName := "Temperature Assessment",
    factorScore := scoreTemperature t value (vitalTrend historicalTrends key),
    weight := riskParam "temperature_weight" }

/-- The oxygen-saturation RiskFactors record of _analyze_vital_metrics. -/
def oxygenFactor (t : AlertThresholds) (value : ℚ) : RiskFactor :=
  { factorName := "Oxygen Saturation Assessment",
    factorScore := scoreOxygenSaturation t value,
    weight := riskParam "oxygen_saturation_weight" }

/-- Embeds _analyze_vital_metrics: heart rate, then temperature (key "temperature"
preferred over "temperature_celsius"), then oxygen saturation
("oxygen_saturation" preferred over "spo2"). -/
def analyzeVitalMetrics (t : AlertThresholds) (vitals : List (String × ℚ))
    (historicalTrends : Option (List (String × List ℚ))) : List RiskFactor :=
  (match alookup "heart_rate" vitals with
   | some v =>
       [{ factorName := "Heart Rate Assessment",
          factorScore := scoreHeartRate t v (vitalTrend historicalTrends "heart_rate"),
          weight := riskParam "heart_rate_weight" }]
   | none => []) ++
  (match alookup "temperature" vitals with
   | some v => [temperatureFactor t v historicalTrends "temperature"]
   | none =>
       match alookup "temperature_celsius" vitals with
       | some v => [temperatureFactor t v historicalTrends "temperature_celsius"]
       | none => []) ++
  (match alookup "oxygen_saturation" vitals with
   | some v => [oxygenFactor t v]
   | none =>
       match alookup "spo2" vitals with
       | some v => [oxygenFactor t v]
       | none => [])

/-- The fixed critical_anomalies list of _analyze_anomaly_flags. -/
def criticalAnomalyFlags : List String :=
  ["heart_rate_abnormal", "temperature_abnormal", "device_tamper"]

/-- One RiskFactors record of _analyze_anomaly_flags. -/
def anomalyFlagFactor (flag : String) : RiskFactor :=
  let isCritical := criticalAnomalyFlags.contains flag
  { factorName := "Anomaly: " ++ pyTitle (replaceUnderscores flag),
    factorScore := if isCritical then 0.8 else 0.5,
    weight := if isCritical then riskParam "anomaly_weight" else 0.2 }

/-- Embeds _analyze_anomaly_flags. -/
def analyzeAnomalyFlags (flags : List String) : List RiskFactor :=
  flags.map anomalyFlagFactor

/-- Embeds _analyze_signal_quality: risk contribution 1 - quality. -/
def analyzeSignalQuality (qualityScore : ℚ) : RiskFactor :=
  { factorName := "Signal Quality",
    factorScore := 1 - qualityScore,
    weight := riskParam "signal_quality_weight" }

/-- Embeds _analyze_trends: one factor per metric with at least 3 points and a mean
step-delta above 0.1 in magnitude. -/
def analyzeTrends (historicalTrends : List (String × List ℚ)) : List RiskFactor :=
  historicalTrends.filterMap fun p =>
    if p.2.length < 3 then none
    else if 0.1 < |meanDiff p.2| then
      some { factorName := "Trend Analysis: " ++ pyTitle (replaceUnderscores p.1),
             factorScore := min 1 (|meanDiff p.2| * 2),
             weight := 0.15 }
    else none

/-- Embeds _calculate_overall_risk_score: 0 on no factors, else the clamped
weight-normalized sum (0 again if the total weight is not positive). -/
def overallRiskScore (factors : List RiskFactor) : ℚ :=
  if factors = [] then 0
  else
    let totalWeight := (factors.map fun f => f.weight).sum
    if 0 < totalWeight then
      clamp01 ((factors.map fun f => f.factorScore * f.weight).sum / totalWeight)
    else 0

/-- Embeds _generate_primary_concerns: top 3 by score*weight with score above 0.3
(the stable descending sort of Python sorted(..., reverse=True)); factor
names stand in for the description strings. -/
def generatePrimaryConcerns (factors : List RiskFactor) : List String :=
  let sorted := factors.mergeSort fun a b =>
    decide (b.factorScore * b.weight ≤ a.factorScore * a.weight)
  let concerns := ((sorted.take 3).filter fun f => decide ((0.3:ℚ) < f.factorScore)).map
    fun f => f.factorName
  if concerns = [] then
    ["No significant concerns identified - all metrics within normal ranges"]
  else concerns

/-- Embeds _generate_recommended_actions: fixed level-dependent advisories plus up
to two factor-specific ones (factor names stand in for descriptions in the
appended text). -/
def generateRecommendedActions (level : RiskLevel) (factors : List RiskFactor) :
    List String :=
  let base : List String :=
    match level with
    | .critical =>
        ["IMMEDIATE ACTION REQUIRED: Medical evaluation needed immediately",
         "Continuous monitoring recommended until risk level decreases"]
    | .high =>
        ["Close monitoring recommended for next 2-4 hours",
         "Consider medical consultation if risk factors persist"]
    | .moderate =>
        ["Monitor closely for next 1-2 hours",
         "Review device status and signal quality"]
    | .low => ["Continue routine monitoring - risk level is low"]
  let highRisk := factors.filter fun f => decide ((0.6:ℚ) < f.factorScore)
  base ++ (highRisk.take 2).filterMap fun f =>
    if strContains (strLower f.factorName) "heart" then
      some ("Monitor heart rate trends closely - " ++ f.factorName)
    else if strContains (strLower f.factorName) "temperature" then
      some ("Monitor temperature trends closely - " ++ f.factorName)
    else none

/-- RiskScoringRequest schema: time_window_hours is an int in (0, 168]. -/
structure RiskScoringRequest where
  deviceId : String
  vitalMetrics : List (String × ℚ)
  historicalTrends : Option (List (String × List ℚ)) := none
  anomalyFlags : Option (List String) := none
  signalQualityScore : Option ℚ := none
  timeWindowHours : ℕ
deriving DecidableEq, Repr

/-- Python truthiness of the optional historical_trends dict. -/
def truthyTrends (ht : Option (List (String × List ℚ))) : Bool :=
  match ht with
  | some (_ :: _) => true
  | _ => false

/-- Python truthiness of the optional anomaly_flags list. -/
def truthyFlags (fl : Option (List String)) : Bool :=
  match fl with
  | some (_ :: _) => true
  | _ => false

/-- Embeds _calculate_confidence: 0.5 base plus data-availability increments,
clamped into [0, 1]. -/
def calcConfidence (factors : List RiskFactor) (r : RiskScoringRequest) : ℚ :=
  clamp01 (0.5 + (if truthyTrends r.historicalTrends then 0.2 else 0)
    + (if r.signalQualityScore.isSome then 0.1 else 0)
    + (if truthyFlags r.anomalyFlags then 0.1 else 0)
    + (if 3 ≤ factors.length then 0.1 else 0))

/-- RiskScoringResponse schema; timestamps are rationals in hours. -/
structure RiskScoringResponse where
  deviceId : String
  overallRiskScore : ℚ
  riskLevel : RiskLevel
  riskFactors : List RiskFactor
  primaryConcerns : List String
  recommendedActions : List String
  confidence : ℚ
  assessedAt : ℚ
  validUntil : ℚ
  modelVersion : String
deriving DecidableEq, Repr

/-- The risk_factors list assembled by calculate_risk: vitals, then anomaly
flags (when truthy), then signal quality (when present), then trends (when
truthy). -/
def riskFactorsOf (r : RiskScoringRequest) : List RiskFactor :=
  analyzeVitalMetrics defaultAlertThresholds r.vitalMetrics r.historicalTrends ++
  (match r.anomalyFlags with
   | some (f :: fs) => analyzeAnomalyFlags (f :: fs)
   | _ => []) ++
  (match r.signalQualityScore with
   | some q => [analyzeSignalQuality q]
   | none => []) ++
  (match r.historicalTrends with
   | some (p :: ps) => analyzeTrends (p :: ps)
   | _ => [])

/-- calculate_risk: the full request-to-response computation of the risk
scoring service, with `now` standing for datetime.utcnow() (both utcnow()
calls of one request are identified) and hours as the time unit:
valid_until = now + min(time_window_hours, 1) hours. -/
def calcRisk (now : ℚ) (r : RiskScoringRequest) : RiskScoringResponse :=
  let factors := riskFactorsOf r
  let overall := overallRiskScore factors
  let level := determineRiskLevel defaultAlertThresholds overall
  { deviceId := r.deviceId,
    overallRiskScore := overall,
    riskLevel := level,
    riskFactors := factors,
    primaryConcerns := generatePrimaryConcerns factors,
    recommendedActions := generateRecommendedActions level factors,
    confidence := calcConfidence factors r,
    assessedAt := now,
    validUntil := now + ((min r.timeWindowHours 1 : ℕ) : ℚ),
    modelVersion := ModelVersion.value .riskScoringV1 }

/-! ## Anomaly detection service (services/anomaly_detection_service.py)

np.std on data-computed baselines is the square root of a rational and is in
general irrational; it enters the pipeline only through the resolved
baseline std and the embedding takes it as an explicit `stdFn` parameter.
Every anomaly claim is either independent of `stdFn` or instantiated on
requests whose baseline_stats supply both moments, where `stdFn` is unused. -/

/-- AnomalyType enum values reachable from the detection service. -/
inductive AnomalyType where
  | heartRateAbnormal
  | temperatureAbnormal
  | motionAnomaly
  | patternDeviation
  | unknown
deriving DecidableEq, Repr

/-- AnomalyResult schema record.  `idx` is the index of the detection into
the request's timestamps list (detected_at = timestamps[idx]); description
and context strings are not modelled. -/
structure AnomalyResult where
  anomalyType : AnomalyType
  severity : ℚ
  confidence : ℚ
  idx : ℕ
  affectedMetrics : List String
deriving DecidableEq, Repr

/-- Embeds _determine_anomaly_type: substring matching on the lower-cased metric
name. -/
def determineAnomalyType (metricName : String) : AnomalyType :=
  let m := strLower metricName
  if strContains m "heart" || strContains m "hr" then .heartRateAbnormal
  else if strContains m "temp" then .temperatureAbnormal
  else if strContains m "motion" || strContains m "imu" then .motionAnomaly
  else .unknown

/-- Per-point |z|-score: |v - mean| / std when std > 0, else 0 (the
np.zeros_like branch). -/
def zscoreAt (bMean bStd v : ℚ) : ℚ := if 0 < bStd then |(v - bMean) / bStd| else 0

/-- Outlier severity min(1, z / (2 * threshold)). -/
def outlierSeverity (zThr z : ℚ) : ℚ := min 1 (z / (zThr * 2))

/-- Outlier confidence min(1, 0.7 + (z - threshold) * 0.1). -/
def outlierConfidence (zThr z : ℚ) : ℚ := min 1 (0.7 + (z - zThr) * 0.1)

/-- The outlier branch of _detect_metric_anomalies at one index: flag when
z strictly exceeds the threshold, then drop the detection when its
confidence is below MIN_CONFIDENCE_FOR_ALERT. -/
def outlierAt (t : AlertThresholds) (metricName : String) (bMean bStd : ℚ)
    (values : List ℚ) (i : ℕ) : Option AnomalyResult :=
  let z := zscoreAt bMean bStd (values.getD i 0)
  if t.Z_SCORE_THRESHOLD < z then
    if outlierConfidence t.Z_SCORE_THRESHOLD z < t.MIN_CONFIDENCE_FOR_ALERT then none
    else
      some { anomalyType := determineAnomalyType metricName,
             severity := outlierSeverity t.Z_SCORE_THRESHOLD z,
             confidence := outlierConfidence t.Z_SCORE_THRESHOLD z,
             idx := i,
             affectedMetrics := [metricName] }
  else none

/-- The statistical-outlier loop of _detect_metric_anomalies
(np.where yields ascending indices). -/
def detectOutliers (t : AlertThresholds) (metricName : String) (bMean bStd : ℚ)
    (values : List ℚ) : List AnomalyResult :=
  (List.range values.length).filterMap (outlierAt t metricName bMean bStd values)

/-- np.convolve(values, ones(w)/w, mode="valid"): means of the length-w
sliding windows. -/
def windowMeans (w : ℕ) (l : List ℚ) : List ℚ :=
  (List.range (l.length + 1 - w)).map fun i => ((l.drop i).take w).sum / w

/-- Trend severity min(1, change / (|baseline_mean| * 0.5)); the float
division by a zero denominator yields +inf in the source, which min caps
to 1. -/
def trendSeverity (bMean change : ℚ) : ℚ :=
  if |bMean| * 0.5 = 0 then 1 else min 1 (change / (|bMean| * 0.5))

/-- Trend confidence min(1, 0.75 + (change/threshold - 1) * 0.1); the float
division by a zero threshold yields +inf in the source, which min caps
to 1. -/
def trendConfidence (threshold change : ℚ) : ℚ :=
  if threshold = 0 then 1 else min 1 (0.75 + (change / threshold - 1) * 0.1)

/-- One step of the rolling-mean scan of _detect_trend_anomalies: compare
window means j and j+1 (source indices i-1 and i, i = j+1); the emitted
detection carries timestamp index i + w - 1 = j + w. -/
def trendAt (t : AlertThresholds) (metricName : String) (bMean : ℚ)
    (rollingMean : List ℚ) (w : ℕ) (j : ℕ) : Option AnomalyResult :=
  let change := |rollingMean.getD (j + 1) 0 - rollingMean.getD j 0|
  let threshold := |bMean| * t.TREND_CHANGE_THRESHOLD
  if threshold < change then
    if trendConfidence threshold change < t.MIN_CONFIDENCE_FOR_ALERT then none
    else
      some { anomalyType := .patternDeviation,
             severity := trendSeverity bMean change,
             confidence := trendConfidence threshold change,
             idx := j + w,
             affectedMetrics := [metricName] }
  else none

/-- Embeds _detect_trend_anomalies: guard len >= 5, window = min(3, len // 2),
scan consecutive rolling means. -/
def detectTrendAnomalies (t : AlertThresholds) (metricName : String) (bMean : ℚ)
    (values : List ℚ) : List AnomalyResult :=
  if values.length < 5 then []
  else
    let w := min 3 (values.length / 2)
    let rollingMean := windowMeans w values
    (List.range (rollingMean.length - 1)).filterMap (trendAt t metricName bMean rollingMean w)

/-- Baseline resolution of _detect_metric_anomalies: supplied baseline_stats
entries win field-by-field over the data-computed moments (an absent or
empty baseline_stats dict is falsy and falls through). -/
def resolveBaseline (stdFn : List ℚ → ℚ)
    (baselineStats : Option (List (String × Option ℚ × Option ℚ)))
    (metricName : String) (values : List ℚ) : ℚ × ℚ :=
  match baselineStats with
  | some stats =>
      match alookup metricName stats with
      | some ms => (ms.1.getD (qmean values), ms.2.getD (stdFn values))
      | none => (qmean values, stdFn values)
  | none => (qmean values, stdFn values)

/-- Embeds _detect_metric_anomalies: skip metrics shorter than 3 points, resolve
the baseline, then outliers followed by (for len >= 5) trend anomalies of
the same metric. -/
def detectMetricAnomalies (stdFn : List ℚ → ℚ) (t : AlertThresholds)
    (baselineStats : Option (List (String × Option ℚ × Option ℚ)))
    (metricName : String) (values : List ℚ) : List AnomalyResult :=
  if values.length < 3 then []
  else
    let bm := (resolveBaseline stdFn baselineStats metricName values).1
    let bs := (resolveBaseline stdFn baselineStats metricName values).2
    detectOutliers t metricName bm bs values ++
      (if 5 ≤ values.length then detectTrendAnomalies t metricName bm values else [])

/-- One index of the cross-metric scan: simultaneous heart-rate spike above
1.2 * mean and temperature spike above 1.1 * mean. -/
def crossMetricAt (hr temp : List ℚ) (i : ℕ) : Option AnomalyResult :=
  if qmean hr * 1.2 < hr.getD i 0 ∧ qmean temp * 1.1 < temp.getD i 0 then
    some { anomalyType := .patternDeviation,
           severity := 0.7,
           confidence := 0.8,
           idx := i,
           affectedMetrics := ["heart_rate", "temperature"] }
  else none

/-- Embeds _detect_cross_metric_anomalies: requires both heart_rate and temperature
series of equal positive length, else silently skips. -/
def detectCrossMetricAnomalies (series : List (String × List ℚ)) : List AnomalyResult :=
  match alookup "heart_rate" series, alookup "temperature" series with
  | some hr, some temp =>
      if hr.length = temp.length ∧ 0 < hr.length then
        (List.range hr.length).filterMap (crossMetricAt hr temp)
      else []
  | _, _ => []

/-- Embeds _calculate_overall_risk: confidence-weighted mean of severities, capped
at 1; 0 on an empty list or a non-positive total weight. -/
def calcOverallRisk (anomalies : List AnomalyResult) : ℚ :=
  if anomalies = [] then 0
  else
    let totalWeight := (anomalies.map fun a => a.confidence).sum
    if 0 < totalWeight then
      min 1 ((anomalies.map fun a => a.severity * a.confidence).sum / totalWeight)
    else 0

/-- AnomalyDetectionRequest schema: named series, timestamps, optional
per-metric baseline stats with optional "mean" / "std" keys. -/
structure AnomalyDetectionRequest where
  deviceId : String
  timeSeriesData : List (String × List ℚ)
  timestamps : List ℚ := []
  baselineStats : Option (List (String × Option ℚ × Option ℚ)) := none
deriving DecidableEq, Repr

/-- AnomalyDetectionResponse schema. -/
structure AnomalyDetectionResponse where
  deviceId : String
  anomaliesDetected : Bool
  anomalyCount : ℕ
  anomalies : List AnomalyResult
  overallRiskScore : ℚ
  processedAt : ℚ
  modelVersion : String
deriving DecidableEq, Repr

/-- detect_anomalies: per-metric anomalies in dict order (each metric's
outliers immediately followed by its trend anomalies), then cross-metric
anomalies, then the aggregate risk score. -/
def detectAnomalies (stdFn : List ℚ → ℚ) (t : AlertThresholds) (now : ℚ)
    (r : AnomalyDetectionRequest) : AnomalyDetectionResponse :=
  let anomalies :=
    (r.timeSeriesData.map fun p =>
      detectMetricAnomalies stdFn t r.baselineStats p.1 p.2).flatten ++
    detectCrossMetricAnomalies r.timeSeriesData
  { deviceId := r.deviceId,
    anomaliesDetected := !anomalies.isEmpty,
    anomalyCount := anomalies.length,
    anomalies := anomalies,
    overallRiskScore := calcOverallRisk anomalies,
    processedAt := now,
    modelVersion := ModelVersion.value .anomalyDetectionV1 }

/-! ## Signal quality service (services/signal_quality_service.py)

Two numeric primitives of this service are irrational over ℚ: np.std
(square root of a rational variance) and np.log10.  _calculate_snr is
embedded exactly over ℝ as snrReal; the full pipeline is embedded over ℚ
with the two primitives as explicit function parameters (stdFn, log10Fn),
which only determinism-style claims quantify over. -/

/-- signal_power = np.mean(signal ** 2). -/
def signalPower (xs : List ℚ) : ℚ := qmean (xs.map fun x => x ^ 2)

/-- noise_estimate = np.std(np.diff(signal)) ** 2, i.e. exactly the
population variance of the consecutive differences. -/
def noiseEstimate (xs : List ℚ) : ℚ := qvariance (qdiff xs)

/-- Embeds _calculate_snr over ℝ: 10*log10(power/noise) clamped to [-50, 100] when
the noise estimate is positive, else the 20.0 dB default. -/
noncomputable def snrReal (xs : List ℚ) : ℝ :=
  if 0 < noiseEstimate xs then
    max (-50) (min 100 (10 * Real.logb 10 ((signalPower xs : ℝ) / (noiseEstimate xs : ℝ))))
  else 20.0

/-- Embeds _calculate_snr with an explicit log10 parameter (rational shadow of
snrReal, used only to state full-pipeline determinism). -/
def snrWith (log10Fn : ℚ → ℚ) (xs : List ℚ) : ℚ :=
  if 0 < noiseEstimate xs then
    max (-50) (min 100 (10 * log10Fn (signalPower xs / noiseEstimate xs)))
  else 20.0

/-- Embeds _calculate_rms_error: std/mean(|x|), defaulting to 0.1 on a zero
denominator. -/
def rmsErrorWith (stdFn : List ℚ → ℚ) (xs : List ℚ) : ℚ :=
  if 0 < qmean (xs.map fun x => |x|) then stdFn xs / qmean (xs.map fun x => |x|)
  else 0.1

/-- The strict-local-maximum count of _calculate_peak_confidence
(loop index i = j + 1 runs over interior points). -/
def peakCount (xs : List ℚ) : ℕ :=
  ((List.range (xs.length - 2)).filter fun j =>
    decide (xs.getD j 0 < xs.getD (j + 1) 0 ∧ xs.getD (j + 2) 0 < xs.getD (j + 1) 0)).length

/-- Embeds _calculate_peak_confidence: peaks / (len/10) capped at 1, with the 0.5
fallbacks for short input or a non-positive expected-peaks estimate. -/
def peakConfidence (xs : List ℚ) : ℚ :=
  if xs.length < 3 then 0.5
  else
    let expectedPeaks : ℚ := (xs.length : ℚ) / 10
    if 0 < expectedPeaks then min 1 ((peakCount xs : ℚ) / expectedPeaks) else 0.5

/-- The degree-1 least-squares slope of np.polyfit(arange(n), xs, 1), in
closed form (n*Σxy - Σx*Σy) / (n*Σx² - (Σx)²). -/
def polySlope (xs : List ℚ) : ℚ :=
  let n : ℚ := xs.length
  let sx : ℚ := ((List.range xs.length).map fun i => (i : ℚ)).sum
  let sxx : ℚ := ((List.range xs.length).map fun i => ((i : ℚ)) ^ 2).sum
  let sy : ℚ := xs.sum
  let sxy : ℚ := ((List.range xs.length).map fun (i : ℕ) => (i : ℚ) * xs.getD i 0).sum
  (n * sxy - sx * sy) / (n * sxx - sx ^ 2)

/-- Embeds _calculate_baseline_drift: |slope| * len, 0 for fewer than 2 samples. -/
def baselineDrift (xs : List ℚ) : ℚ :=
  if xs.length < 2 then 0 else |polySlope xs| * xs.length

/-- Embeds _calculate_motion_artifact: std(diff)/ (std * k) capped at 1, with k
keyed on the signal type (non-ppg, non-temperature tags take the imu
branch), and 0.5 fallbacks for short input or a non-positive threshold. -/
def motionArtifact (stdFn : List ℚ → ℚ) (xs : List ℚ) (signalType : String) : ℚ :=
  if xs.length < 3 then 0.5
  else
    let highFreqEnergy := stdFn (qdiff xs)
    let threshold := stdFn xs *
      (if signalType = "ppg" then 0.1
       else if signalType = "temperature" then 0.05
       else 0.2)
    if 0 < threshold then min 1 (highFreqEnergy / threshold) else 0.5

/-- self.params[...] lookup for the signal-quality service. -/
def sqParam (k : String) : ℚ := (alookup k signalQualityParams).getD 0

/-- Embeds _calculate_quality_score: normalize the five sub-metrics and combine
them with the registry weights, clamped into [0, 1]. -/
def qualityScoreOf (snr rmsErr peakConf drift motion : ℚ) : ℚ :=
  let snrNormalized := min 1 (max 0 ((snr + 10) / 30))
  let rmsNormalized := max 0 (min 1 (1 - rmsErr / 0.1))
  let driftNormalized := max 0 (min 1 (1 - drift / 0.1))
  let motionNormalized := 1 - motion
  clamp01 (sqParam "snr_weight" * snrNormalized
    + sqParam "rms_weight" * rmsNormalized
    + sqParam "peak_confidence_weight" * peakConf
    + sqParam "baseline_drift_weight" * driftNormalized
    + sqParam "motion_artifact_weight" * motionNormalized)

/-- Embeds _determine_quality_grade. -/
def determineQualityGrade (t : AlertThresholds) (qualityScore : ℚ) : String :=
  if t.SIGNAL_QUALITY_EXCELLENT ≤ qualityScore then "excellent"
  else if t.SIGNAL_QUALITY_GOOD ≤ qualityScore then "good"
  else if t.SIGNAL_QUALITY_USABLE ≤ qualityScore then "fair"
  else "poor"

/-- Embeds _generate_recommendations in the fixed check order; the constant
sentence openings stand in for the formatted message strings. -/
def generateSqRecommendations (t : AlertThresholds)
    (snr rmsErr peakConf drift motion qualityScore : ℚ) : List String :=
  let recs :=
    (if snr < 15 then ["Low signal-to-noise ratio detected"] else []) ++
    (if 0.1 < rmsErr then ["High RMS error detected"] else []) ++
    (if peakConf < 0.7 then ["Low peak detection confidence"] else []) ++
    (if 0.1 < drift then ["Significant baseline drift detected"] else []) ++
    (if 0.3 < motion then ["Motion artifacts detected"] else []) ++
    (if qualityScore < t.SIGNAL_QUALITY_USABLE then
      ["Overall signal quality is below acceptable threshold"] else [])
  if recs = [] then ["Signal quality is acceptable for analysis"] else recs

/-- SignalQualityRequest schema. -/
structure SignalQualityRequest where
  deviceId : String
  signalData : List ℚ
  samplingRate : ℚ
  signalType : String
deriving DecidableEq, Repr

/-- SignalQualityMetrics schema record. -/
structure SignalQualityMetrics where
  snr : ℚ
  rmsError : ℚ
  peakDetectionConfidence : ℚ
  baselineDrift : ℚ
  motionArtifactScore : ℚ
deriving DecidableEq, Repr

/-- SignalQualityResponse schema. -/
structure SignalQualityResponse where
  deviceId : String
  qualityScore : ℚ
  qualityGrade : String
  metrics : SignalQualityMetrics
  isUsable : Bool
  recommendations : List String
  processedAt : ℚ
  modelVersion : String
deriving DecidableEq, Repr

/-- assess_quality: the full request-to-response computation of the signal
quality service, parametrized by the two irrational primitives. -/
def assessQuality (stdFn : List ℚ → ℚ) (log10Fn : ℚ → ℚ) (now : ℚ)
    (r : SignalQualityRequest) : SignalQualityResponse :=
  let snr := snrWith log10Fn r.signalData
  let rms := rmsErrorWith stdFn r.signalData
  let pk := peakConfidence r.signalData
  let drift := baselineDrift r.signalData
  let motion := motionArtifact stdFn r.signalData r.signalType
  let score := qualityScoreOf snr rms pk drift motion
  { deviceId := r.deviceId,
    qualityScore := score,
    qualityGrade := determineQualityGrade defaultAlertThresholds score,
    metrics :=
      { snr := snr, rmsError := rms, peakDetectionConfidence := pk,
        baselineDrift := drift, motionArtifactScore := motion },
    isUsable := decide (defaultAlertThresholds.SIGNAL_QUALITY_USABLE ≤ score),
    recommendations :=
      generateSqRecommendations defaultAlertThresholds snr rms pk drift motion score,
    processedAt := now,
    modelVersion := ModelVersion.value .signalQualityV1 }

/-! ## Fixtures for concrete evaluations -/

/-- The anomaly ordering stated by the specification sentence behind claim
C5, written from the spec's words for comparison with detect_anomalies:
first the statistical outliers of all metrics (metrics in input-iteration
order), then the trend anomalies of all metrics (same order), then the
cross-metric anomalies. -/
def claimOrderedAnomaliesC5 (stdFn : List ℚ → ℚ) (t : AlertThresholds)
    (r : AnomalyDetectionRequest) : List AnomalyResult :=
  (r.timeSeriesData.map fun p =>
    if p.2.length < 3 then []
    else
      detectOutliers t p.1 (resolveBaseline stdFn r.baselineStats p.1 p.2).1
        (resolveBaseline stdFn r.baselineStats p.1 p.2).2 p.2).flatten ++
  (r.timeSeriesData.map fun p =>
    if p.2.length < 3 then []
    else if 5 ≤ p.2.length then
      detectTrendAnomalies t p.1 (resolveBaseline stdFn r.baselineStats p.1 p.2).1 p.2
    else []).flatten ++
  detectCrossMetricAnomalies r.timeSeriesData

/-- A placeholder std estimator for concrete runs whose baseline_stats
supply both moments (the estimator is then never consulted). -/
def zeroStd : List ℚ → ℚ := fun _ => 0

/-- Concrete anomaly request: metric "a" produces only trend anomalies,
metric "b" produces only a statistical outlier; baseline stats supply both
moments for both metrics. -/
def exC5Request : AnomalyDetectionRequest :=
  { deviceId := "dev-001",
    timeSeriesData := [("a", [0, 0, 0, 10, 10]), ("b", [0, 0, 100])],
    timestamps := [0, 1, 2, 3, 4],
    baselineStats := some [("a", (some 10, some 100)), ("b", (some 0, some 1))] }

/-- The timestamp-free part of a signal quality response (every field except
processed_at). -/
def signalResponseCore (resp : SignalQualityResponse) :=
  (resp.deviceId, resp.qualityScore, resp.qualityGrade, resp.metrics, resp.isUsable,
   resp.recommendations, resp.modelVersion)

/-- The timestamp-free part of an anomaly detection response (every field
except processed_at). -/
def anomalyResponseCore (resp : AnomalyDetectionResponse) :=
  (resp.deviceId, resp.anomaliesDetected, resp.anomalyCount, resp.anomalies,
   resp.overallRiskScore, resp.modelVersion)

/-- The timestamp-free part of a risk scoring response (every field except
assessed_at and valid_until). -/
def riskResponseCore (resp : RiskScoringResponse) :=
  (resp.deviceId, resp.overallRiskScore, resp.riskLevel, resp.riskFactors,
   resp.primaryConcerns, resp.recommendedActions, resp.confidence, resp.modelVersion)

/-- The risk-scoring scenario request of the specification: vitals
{heart_rate 95, temperature 37.2, oxygen_saturation 96}, signal quality
0.85, time window 24 hours. -/
def specScenarioRiskRequest : RiskScoringRequest :=
  { deviceId := "dev-001",
    vitalMetrics := [("heart_rate", 95), ("temperature", 37.2), ("oxygen_saturation", 96)],
    signalQualityScore := some 0.85,
    timeWindowHours := 24 }

/-! ## Helper lemmas -/

theorem clamp01_nonneg (x : ℚ) : 0 ≤ clamp01 x := le_max_left 0 _

theorem clamp01_le_one (x : ℚ) : clamp01 x ≤ 1 :=
  max_le (by norm_num) (min_le_left 1 x)

/-! ## Claims -/

/-- C1: _determine_risk_level on the registry thresholds
(RISK_SCORE_HIGH = 0.75, RISK_SCORE_MODERATE = 0.5, RISK_SCORE_LOW = 0.25)
assigns critical for scores at or above 0.75, high on [0.5, 0.75), moderate
on [0.25, 0.5) and low below 0.25 — each level name one tier above the
threshold constant it is keyed on — and the risk level of every computed
response is exactly this map applied to its overall score. -/
theorem claim_C1_risk_level_mapping (s : ℚ) :
    (defaultAlertThresholds.RISK_SCORE_HIGH = 0.75 ∧
     defaultAlertThresholds.RISK_SCORE_MODERATE = 0.5 ∧
     defaultAlertThresholds.RISK_SCORE_LOW = 0.25) ∧
    ((0.75 : ℚ) ≤ s → determineRiskLevel defaultAlertThresholds s = .critical) ∧
    ((0.5 : ℚ) ≤ s → s < 0.75 → determineRiskLevel defaultAlertThresholds s = .high) ∧
    ((0.25 : ℚ) ≤ s → s < 0.5 → determineRiskLevel defaultAlertThresholds s = .moderate) ∧
    (s < 0.25 → determineRiskLevel defaultAlertThresholds s = .low) ∧
    (∀ (now : ℚ) (r : RiskScoringRequest),
      (calcRisk now r).riskLevel =
        determineRiskLevel defaultAlertThresholds (calcRisk now r).overallRiskScore) := by
  have hH : defaultAlertThresholds.RISK_SCORE_HIGH = (0.75 : ℚ) := rfl
  have hM : defaultAlertThresholds.RISK_SCORE_MODERATE = (0.5 : ℚ) := rfl
  have hL : defaultAlertThresholds.RISK_SCORE_LOW = (0.25 : ℚ) := rfl
  refine ⟨⟨hH, hM, hL⟩, fun h => ?_, fun h1 h2 => ?_, fun h1 h2 => ?_, fun h => ?_,
    fun now r => rfl⟩ <;>
    simp only [determineRiskLevel, hH, hM, hL] <;>
    split_ifs <;> first | rfl | linarith

/-- Witness for C1 at the concrete scores 0.8, 0.6, 0.3 and 0.1. -/
theorem claim_C1_risk_level_mapping_witness :
    determineRiskLevel defaultAlertThresholds 0.8 = .critical ∧
    determineRiskLevel defaultAlertThresholds 0.6 = .high ∧
    determineRiskLevel defaultAlertThresholds 0.3 = .moderate ∧
    determineRiskLevel defaultAlertThresholds 0.1 = .low :=
  ⟨(claim_C1_risk_level_mapping 0.8).2.1 (by norm_num),
   (claim_C1_risk_level_mapping 0.6).2.2.1 (by norm_num) (by norm_num),
   (claim_C1_risk_level_mapping 0.3).2.2.2.1 (by norm_num) (by norm_num),
   (claim_C1_risk_level_mapping 0.1).2.2.2.2.1 (by norm_num)⟩

/-- C2: for every risk request with time_window_hours in [1, 168] the
response satisfies valid_until = assessed_at + min(time_window_hours, 1)
hours = assessed_at + exactly 1 hour. -/
theorem claim_C2_validity_window_cap (now : ℚ) (r : RiskScoringRequest)
    (h1 : 1 ≤ r.timeWindowHours) (hub : r.timeWindowHours ≤ 168) :
    (calcRisk now r).validUntil =
      (calcRisk now r).assessedAt + ((min r.timeWindowHours 1 : ℕ) : ℚ) ∧
    (calcRisk now r).validUntil = (calcRisk now r).assessedAt + 1 := by
  have hmin : min r.timeWindowHours 1 = 1 := Nat.min_eq_right h1
  constructor
  · rfl
  · show now + ((min r.timeWindowHours 1 : ℕ) : ℚ) = now + 1
    rw [hmin]
    norm_num

/-- Witness for C2: the spec scenario request (heart_rate 95,
temperature 37.2, oxygen_saturation 96, signal quality 0.85,
time_window_hours 24) assessed at now = 0 expires exactly 1 hour later. -/
theorem claim_C2_validity_window_cap_witness :
    (calcRisk 0 { deviceId := "dev-001",
                  vitalMetrics :=
                    [("heart_rate", 95), ("temperature", 37.2), ("oxygen_saturation", 96)],
                  signalQualityScore := some 0.85,
                  timeWindowHours := 24 }).validUntil =
      (calcRisk 0 { deviceId := "dev-001",
                    vitalMetrics :=
                      [("heart_rate", 95), ("temperature", 37.2), ("oxygen_saturation", 96)],
                    signalQualityScore := some 0.85,
                    timeWindowHours := 24 }).assessedAt + 1 :=
  (claim_C2_validity_window_cap 0 _ (by norm_num) (by norm_num)).2

/-- C7: every one of the three registered versions is found in the registry
and returned by get_model_config; get_latest_model_version maps exactly the
three known model-type strings to their versions and errors on every other
string; get_thresholds returns the thresholds field of get_model_config;
all lookups are pure functions of the fixed registry. -/
theorem claim_C7_registry_lookups :
    (∀ v : ModelVersion, ∃ c : ModelConfig,
        alookup v MODEL_REGISTRY = some c ∧ getModelConfig v = .ok c) ∧
    (getLatestModelVersion "signal_quality" = .ok .signalQualityV1 ∧
     getLatestModelVersion "anomaly_detection" = .ok .anomalyDetectionV1 ∧
     getLatestModelVersion "risk_scoring" = .ok .riskScoringV1) ∧
    (∀ s : String, s ≠ "signal_quality" → s ≠ "anomaly_detection" → s ≠ "risk_scoring" →
        getLatestModelVersion s = .error ("Unknown model type: " ++ s)) ∧
    (∀ (v : ModelVersion) (c : ModelConfig),
        getModelConfig v = .ok c → getThresholds v = .ok c.thresholds) := by
  refine ⟨fun v => ?_, ⟨rfl, rfl, rfl⟩, fun s h1 h2 h3 => ?_, fun v c h => ?_⟩
  · cases v <;> exact ⟨_, rfl, rfl⟩
  · simp [getLatestModelVersion, h1, h2, h3]
  · simp [getThresholds, h]

/-- Witness for C7: an unknown model-type string errors, and the
risk-scoring thresholds resolve to the registry defaults. -/
theorem claim_C7_registry_lookups_witness :
    getLatestModelVersion "foo" = .error ("Unknown model type: " ++ "foo") ∧
    getThresholds .riskScoringV1 = .ok defaultAlertThresholds := by
  constructor
  · exact claim_C7_registry_lookups.2.2.1 "foo" (by decide) (by decide) (by decide)
  · exact claim_C7_registry_lookups.2.2.2 .riskScoringV1 _ rfl

/-- C9: each engine is a pure function of its request plus the fixed
configuration; two invocations with identical payloads (and identical
numeric primitives) agree on every response field other than the timestamp
fields, whatever the two clock readings were. -/
theorem claim_C9_determinism :
    (∀ (stdFn : List ℚ → ℚ) (log10Fn : ℚ → ℚ) (now now' : ℚ) (r : SignalQualityRequest),
        signalResponseCore (assessQuality stdFn log10Fn now r) =
          signalResponseCore (assessQuality stdFn log10Fn now' r)) ∧
    (∀ (stdFn : List ℚ → ℚ) (t : AlertThresholds) (now now' : ℚ)
        (r : AnomalyDetectionRequest),
        anomalyResponseCore (detectAnomalies stdFn t now r) =
          anomalyResponseCore (detectAnomalies stdFn t now' r)) ∧
    (∀ (now now' : ℚ) (r : RiskScoringRequest),
        riskResponseCore (calcRisk now r) = riskResponseCore (calcRisk now' r)) :=
  ⟨fun _ _ _ _ _ => rfl, fun _ _ _ _ _ => rfl, fun _ _ _ => rfl⟩

/-- C4: the SNR of _calculate_snr always lies in [-50, 100]; it is the
clamped 10*log10(mean(x²)/var(diff(x))) when the noise estimate is
positive and exactly 20.0 when the noise estimate is zero. -/
theorem claim_C4_snr_range (xs : List ℚ) :
    ((-50 : ℝ) ≤ snrReal xs ∧ snrReal xs ≤ 100) ∧
    (0 < noiseEstimate xs →
      snrReal xs =
        max (-50) (min 100
          (10 * Real.logb 10 ((signalPower xs : ℝ) / (noiseEstimate xs : ℝ))))) ∧
    (noiseEstimate xs = 0 → snrReal xs = 20) := by
  refine ⟨?_, fun h => ?_, fun h => ?_⟩
  · unfold snrReal
    split_ifs with h
    · exact ⟨le_max_left _ _, max_le (by norm_num) (min_le_left _ _)⟩
    · norm_num
  · simp [snrReal, h]
  · simp only [snrReal, h, lt_irrefl, if_false]
    norm_num

/-- Witness for C4: [0, 1, 0] has noise estimate 1 > 0 and takes the
clamped-logarithm branch; [1, 2, 3] has constant differences, noise
estimate 0, and SNR exactly 20. -/
theorem claim_C4_snr_range_witness :
    snrReal [0, 1, 0] =
      max (-50) (min 100
        (10 * Real.logb 10
          ((signalPower [0, 1, 0] : ℝ) / (noiseEstimate [0, 1, 0] : ℝ)))) ∧
    snrReal [1, 2, 3] = 20 :=
  ⟨(claim_C4_snr_range [0, 1, 0]).2.1
      (by norm_num [noiseEstimate, qvariance, qdiff, qmean, List.zipWith]),
   (claim_C4_snr_range [1, 2, 3]).2.2
      (by norm_num [noiseEstimate, qvariance, qdiff, qmean, List.zipWith])⟩

/-- Sum of severity-weighted confidences is bounded by the sum of
confidences when severities are at most 1 and confidences nonnegative. -/
theorem weightedSeveritySum_le (l : List AnomalyResult)
    (hb : ∀ a ∈ l, a.severity ≤ 1 ∧ 0 ≤ a.confidence) :
    (l.map fun a => a.severity * a.confidence).sum ≤ (l.map fun a => a.confidence).sum := by
  induction l with
  | nil => simp
  | cons a rest ih =>
      simp only [List.map_cons, List.sum_cons]
      have ha := hb a (List.mem_cons_self a rest)
      have h1 : a.severity * a.confidence ≤ a.confidence := by nlinarith [ha.1, ha.2]
      have h2 := ih fun x hx => hb x (List.mem_cons_of_mem a hx)
      linarith

/-- C8: the anomaly response's overall_risk_score is the confidence-weighted
mean of the detected severities — exactly 0 on an empty anomaly list and 0
when the total confidence weight is 0 (severities in [0,1] and confidences
in [0,1] make the cap min(1, ·) inert). -/
theorem claim_C8_overall_risk_weighted_mean (l : List AnomalyResult)
    (hb : ∀ a ∈ l, a.severity ≤ 1 ∧ 0 ≤ a.confidence) :
    (l = [] → calcOverallRisk l = 0) ∧
    ((l.map fun a => a.confidence).sum = 0 → calcOverallRisk l = 0) ∧
    (0 < (l.map fun a => a.confidence).sum →
      calcOverallRisk l =
        (l.map fun a => a.severity * a.confidence).sum /
          (l.map fun a => a.confidence).sum) ∧
    (∀ (stdFn : List ℚ → ℚ) (t : AlertThresholds) (now : ℚ)
        (r : AnomalyDetectionRequest),
        (detectAnomalies stdFn t now r).overallRiskScore =
          calcOverallRisk (detectAnomalies stdFn t now r).anomalies) := by
  refine ⟨fun h => by simp [calcOverallRisk, h], fun h => ?_, fun h => ?_,
    fun _ _ _ _ => rfl⟩
  · simp only [calcOverallRisk]
    split_ifs with h1 h2
    · rfl
    · rw [h] at h2
      exact absurd h2 (lt_irrefl 0)
    · rfl
  · simp only [calcOverallRisk]
    split_ifs with h1
    · rw [h1] at h
      simp at h
    · exact min_eq_right ((div_le_one h).mpr (weightedSeveritySum_le l hb))

/-- Witness for C8 on a one-element anomaly list with severity 0.7 and
confidence 0.8. -/
theorem claim_C8_overall_risk_weighted_mean_witness :
    calcOverallRisk
        [{ anomalyType := .unknown, severity := 0.7, confidence := 0.8, idx := 2,
           affectedMetrics := ["b"] }] =
      (([{ anomalyType := .unknown, severity := 0.7, confidence := 0.8, idx := 2,
           affectedMetrics := ["b"] }] : List AnomalyResult).map
          fun a => a.severity * a.confidence).sum /
        (([{ anomalyType := .unknown, severity := 0.7, confidence := 0.8, idx := 2,
             affectedMetrics := ["b"] }] : List AnomalyResult).map
            fun a => a.confidence).sum := by
  refine (claim_C8_overall_risk_weighted_mean _ ?_).2.2.1 ?_
  · intro a ha
    rw [List.mem_singleton] at ha
    subst ha
    exact ⟨by norm_num, by norm_num⟩
  · norm_num

/-- An outlier detection emitted at scan position i carries timestamp
index i. -/
theorem outlierAt_idx {t : AlertThresholds} {metricName : String} {bMean bStd : ℚ}
    {values : List ℚ} {i : ℕ} {a : AnomalyResult}
    (h : outlierAt t metricName bMean bStd values i = some a) : a.idx = i := by
  simp only [outlierAt] at h
  split_ifs at h
  all_goals simp at h
  all_goals (subst h; rfl)

/-- A trend detection emitted at scan position j carries timestamp index
j + w. -/
theorem trendAt_idx {t : AlertThresholds} {metricName : String} {bMean : ℚ}
    {rollingMean : List ℚ} {w j : ℕ} {a : AnomalyResult}
    (h : trendAt t metricName bMean rollingMean w j = some a) : a.idx = j + w := by
  simp only [trendAt] at h
  split_ifs at h
  all_goals simp at h
  all_goals (subst h; rfl)

/-- Index-membership in the outlier list is exactly "the per-index outlier
branch fires". -/
theorem mem_detectOutliers (t : AlertThresholds) (metricName : String)
    (bMean bStd : ℚ) (values : List ℚ) (i : ℕ) :
    (∃ a ∈ detectOutliers t metricName bMean bStd values, a.idx = i) ↔
      i < values.length ∧ (outlierAt t metricName bMean bStd values i).isSome := by
  constructor
  · rintro ⟨a, ha, hidx⟩
    rw [detectOutliers, List.mem_filterMap] at ha
    obtain ⟨j, hjr, hja⟩ := ha
    have hij : j = i := by rw [← hidx, outlierAt_idx hja]
    subst hij
    exact ⟨List.mem_range.mp hjr, by rw [hja]; rfl⟩
  · rintro ⟨hi, hsome⟩
    obtain ⟨a, ha⟩ := Option.isSome_iff_exists.mp hsome
    exact ⟨a, List.mem_filterMap.mpr ⟨i, List.mem_range.mpr hi, ha⟩, outlierAt_idx ha⟩

/-- C3: with a positive baseline std and at least 3 points, a point whose
|z|-score equals Z_SCORE_THRESHOLD exactly is never flagged, and a point
whose |z|-score strictly exceeds it is emitted as an outlier anomaly
precisely when its confidence min(1, 0.7 + (z - threshold)*0.1) reaches
MIN_CONFIDENCE_FOR_ALERT. -/
theorem claim_C3_zscore_boundary (t : AlertThresholds) (metricName : String)
    (bMean bStd : ℚ) (values : List ℚ) (hstd : 0 < bStd) (hlen : 3 ≤ values.length)
    (i : ℕ) (hi : i < values.length) :
    (zscoreAt bMean bStd (values.getD i 0) = t.Z_SCORE_THRESHOLD →
      ¬ ∃ a ∈ detectOutliers t metricName bMean bStd values, a.idx = i) ∧
    (t.Z_SCORE_THRESHOLD < zscoreAt bMean bStd (values.getD i 0) →
      ((∃ a ∈ detectOutliers t metricName bMean bStd values, a.idx = i) ↔
        t.MIN_CONFIDENCE_FOR_ALERT ≤
          outlierConfidence t.Z_SCORE_THRESHOLD (zscoreAt bMean bStd (values.getD i 0)))) := by
  constructor
  · intro heq hmem
    rw [mem_detectOutliers] at hmem
    have hsome := hmem.2
    simp only [outlierAt, heq] at hsome
    rw [if_neg (lt_irrefl _)] at hsome
    simp at hsome
  · intro hz
    rw [mem_detectOutliers]
    constructor
    · rintro ⟨_, hsome⟩
      simp only [outlierAt] at hsome
      rw [if_pos hz] at hsome
      split_ifs at hsome with hc
      · simp at hsome
      · exact not_lt.mp hc
    · intro hconf
      refine ⟨hi, ?_⟩
      simp only [outlierAt]
      rw [if_pos hz, if_neg (not_lt.mpr hconf)]
      rfl

/-- Witness for C3: with baseline mean 0 and std 1, the series [0, 0, 3]
has |z| = 3 at index 2 and is not flagged; the series [0, 0, 100] has
|z| = 100 there and the emission test coincides with the confidence
threshold test. -/
theorem claim_C3_zscore_boundary_witness :
    (¬ ∃ a ∈ detectOutliers defaultAlertThresholds "b" 0 1 [0, 0, 3], a.idx = 2) ∧
    ((∃ a ∈ detectOutliers defaultAlertThresholds "b" 0 1 [0, 0, 100], a.idx = 2) ↔
      defaultAlertThresholds.MIN_CONFIDENCE_FOR_ALERT ≤
        outlierConfidence defaultAlertThresholds.Z_SCORE_THRESHOLD
          (zscoreAt 0 1 (([0, 0, 100] : List ℚ).getD 2 0))) :=
  ⟨(claim_C3_zscore_boundary defaultAlertThresholds "b" 0 1 [0, 0, 3] (by norm_num)
      (by norm_num) 2 (by norm_num)).1
      (by norm_num [zscoreAt, defaultAlertThresholds]),
   (claim_C3_zscore_boundary defaultAlertThresholds "b" 0 1 [0, 0, 100] (by norm_num)
      (by norm_num) 2 (by norm_num)).2
      (by norm_num [zscoreAt, defaultAlertThresholds])⟩

/-- C10: under the registry defaults (z threshold 3, trend threshold 0.2,
minimum alert confidence 0.6) the low-confidence discard branches are
unreachable: every outlier candidate with z above the threshold has
confidence at least 0.7 > 0.6 and is emitted, and every trend candidate
whose change exceeds its threshold has confidence above 0.75 > 0.6 and is
emitted. -/
theorem claim_C10_no_low_confidence_discard :
    (∀ z : ℚ, defaultAlertThresholds.Z_SCORE_THRESHOLD < z →
      (0.7 : ℚ) ≤ outlierConfidence defaultAlertThresholds.Z_SCORE_THRESHOLD z ∧
      ¬ outlierConfidence defaultAlertThresholds.Z_SCORE_THRESHOLD z <
          defaultAlertThresholds.MIN_CONFIDENCE_FOR_ALERT) ∧
    (∀ threshold change : ℚ, 0 ≤ threshold → threshold < change →
      (0.75 : ℚ) < trendConfidence threshold change ∧
      ¬ trendConfidence threshold change <
          defaultAlertThresholds.MIN_CONFIDENCE_FOR_ALERT) ∧
    (∀ (metricName : String) (bMean bStd : ℚ) (values : List ℚ) (i : ℕ),
      i < values.length →
      defaultAlertThresholds.Z_SCORE_THRESHOLD < zscoreAt bMean bStd (values.getD i 0) →
      ∃ a ∈ detectOutliers defaultAlertThresholds metricName bMean bStd values,
        a.idx = i) ∧
    (∀ (metricName : String) (bMean : ℚ) (rollingMean : List ℚ) (w j : ℕ),
      |bMean| * defaultAlertThresholds.TREND_CHANGE_THRESHOLD <
          |rollingMean.getD (j + 1) 0 - rollingMean.getD j 0| →
      (trendAt defaultAlertThresholds metricName bMean rollingMean w j).isSome) := by
  have hZ : defaultAlertThresholds.Z_SCORE_THRESHOLD = (3 : ℚ) := by norm_num [defaultAlertThresholds]
  have hMin : defaultAlertThresholds.MIN_CONFIDENCE_FOR_ALERT = (0.6 : ℚ) := by norm_num [defaultAlertThresholds]
  have houtlier : ∀ z : ℚ, (3 : ℚ) < z → (0.7 : ℚ) ≤ outlierConfidence 3 z := by
    intro z hz
    exact le_min (by norm_num) (by nlinarith)
  have htrend : ∀ threshold change : ℚ, 0 ≤ threshold → threshold < change →
      (0.75 : ℚ) < trendConfidence threshold change := by
    intro threshold change h0 hlt
    rw [trendConfidence]
    split_ifs with hth
    · norm_num
    · have hpos : 0 < threshold := lt_of_le_of_ne h0 (Ne.symm hth)
      have h1 : (1 : ℚ) < change / threshold := (one_lt_div hpos).mpr hlt
      exact lt_min (by norm_num) (by nlinarith)
  refine ⟨fun z hz => ?_, fun threshold change h0 hlt => ?_, ?_, ?_⟩
  · rw [hZ] at hz
    rw [hZ, hMin]
    have := houtlier z hz
    exact ⟨this, by linarith⟩
  · rw [hMin]
    have := htrend threshold change h0 hlt
    exact ⟨this, by linarith⟩
  · intro metricName bMean bStd values i hi hz
    rw [mem_detectOutliers]
    refine ⟨hi, ?_⟩
    simp only [outlierAt]
    rw [if_pos hz]
    rw [hZ] at hz
    have hc := houtlier _ hz
    rw [if_neg (by rw [hZ, hMin]; intro hcon; linarith)]
    rfl
  · intro metricName bMean rollingMean w j hchange
    simp only [trendAt]
    rw [if_pos hchange]
    have h0 : (0 : ℚ) ≤ |bMean| * defaultAlertThresholds.TREND_CHANGE_THRESHOLD := by
      rw [show defaultAlertThresholds.TREND_CHANGE_THRESHOLD = (0.2 : ℚ) by norm_num [defaultAlertThresholds]]
      positivity
    have := htrend _ _ h0 hchange
    rw [if_neg (by rw [hMin]; intro hcon; linarith)]
    rfl

/-- Witness for C10: a concrete above-threshold z-score and trend change. -/
theorem claim_C10_no_low_confidence_discard_witness :
    ((0.7 : ℚ) ≤ outlierConfidence defaultAlertThresholds.Z_SCORE_THRESHOLD 5 ∧
      ¬ outlierConfidence defaultAlertThresholds.Z_SCORE_THRESHOLD 5 <
          defaultAlertThresholds.MIN_CONFIDENCE_FOR_ALERT) ∧
    ((0.75 : ℚ) < trendConfidence 2 5 ∧
      ¬ trendConfidence 2 5 < defaultAlertThresholds.MIN_CONFIDENCE_FOR_ALERT) ∧
    (∃ a ∈ detectOutliers defaultAlertThresholds "b" 0 1 [0, 0, 100], a.idx = 2) :=
  ⟨claim_C10_no_low_confidence_discard.1 5 (by norm_num [defaultAlertThresholds]),
   claim_C10_no_low_confidence_discard.2.1 2 5 (by norm_num) (by norm_num),
   claim_C10_no_low_confidence_discard.2.2.1 "b" 0 1 [0, 0, 100] 2 (by norm_num)
     (by norm_num [zscoreAt, defaultAlertThresholds])⟩

/-- Shows _score_heart_rate lands in [0, 1] (it ends in the 0/1 clamp). -/
theorem scoreHeartRate_mem_unit (t : AlertThresholds) (value : ℚ)
    (trend : Option (List ℚ)) :
    0 ≤ scoreHeartRate t value trend ∧ scoreHeartRate t value trend ≤ 1 := by
  simp only [scoreHeartRate]
  exact ⟨clamp01_nonneg _, clamp01_le_one _⟩

/-- Shows _score_temperature lands in [0, 1]. -/
theorem scoreTemperature_mem_unit (t : AlertThresholds) (value : ℚ)
    (trend : Option (List ℚ)) :
    0 ≤ scoreTemperature t value trend ∧ scoreTemperature t value trend ≤ 1 := by
  simp only [scoreTemperature]
  exact ⟨clamp01_nonneg _, clamp01_le_one _⟩

/-- Shows _score_oxygen_saturation lands in [0, 1] (its four outcomes are the
constants 1.0, 0.7, 0.4, 0.1). -/
theorem scoreOxygenSaturation_mem_unit (t : AlertThresholds) (value : ℚ) :
    0 ≤ scoreOxygenSaturation t value ∧ scoreOxygenSaturation t value ≤ 1 := by
  simp only [scoreOxygenSaturation]
  split_ifs <;> norm_num

/-- Every vital-metric factor score lands in [0, 1]. -/
theorem analyzeVitalMetrics_mem_unit (t : AlertThresholds) (vitals : List (String × ℚ))
    (ht : Option (List (String × List ℚ))) :
    ∀ f ∈ analyzeVitalMetrics t vitals ht, 0 ≤ f.factorScore ∧ f.factorScore ≤ 1 := by
  intro f hf
  simp only [analyzeVitalMetrics, List.mem_append] at hf
  rcases hf with (hf | hf) | hf
  · rcases h1 : alookup "heart_rate" vitals with _ | v
    · rw [h1] at hf
      simp at hf
    · rw [h1] at hf
      simp at hf
      subst hf
      exact scoreHeartRate_mem_unit t v _
  · rcases h1 : alookup "temperature" vitals with _ | v
    · rw [h1] at hf
      simp only [] at hf
      rcases h2 : alookup "temperature_celsius" vitals with _ | v
      · rw [h2] at hf
        simp at hf
      · rw [h2] at hf
        simp at hf
        subst hf
        exact scoreTemperature_mem_unit t v _
    · rw [h1] at hf
      simp at hf
      subst hf
      exact scoreTemperature_mem_unit t v _
  · rcases h1 : alookup "oxygen_saturation" vitals with _ | v
    · rw [h1] at hf
      simp only [] at hf
      rcases h2 : alookup "spo2" vitals with _ | v
      · rw [h2] at hf
        simp at hf
      · rw [h2] at hf
        simp at hf
        subst hf
        exact scoreOxygenSaturation_mem_unit t v
    · rw [h1] at hf
      simp at hf
      subst hf
      exact scoreOxygenSaturation_mem_unit t v

/-- Every anomaly-flag factor score is 0.8 or 0.5, hence in [0, 1]. -/
theorem analyzeAnomalyFlags_mem_unit (flags : List String) :
    ∀ f ∈ analyzeAnomalyFlags flags, 0 ≤ f.factorScore ∧ f.factorScore ≤ 1 := by
  intro f hf
  simp only [analyzeAnomalyFlags, List.mem_map] at hf
  obtain ⟨flag, _, rfl⟩ := hf
  simp only [anomalyFlagFactor]
  split_ifs <;> norm_num

/-- Every trend factor score is min(1, |delta| * 2), hence in [0, 1]. -/
theorem analyzeTrends_mem_unit (ht : List (String × List ℚ)) :
    ∀ f ∈ analyzeTrends ht, 0 ≤ f.factorScore ∧ f.factorScore ≤ 1 := by
  intro f hf
  simp only [analyzeTrends, List.mem_filterMap] at hf
  obtain ⟨p, _, hp⟩ := hf
  by_cases h1 : p.2.length < 3
  · rw [if_pos h1] at hp
    exact absurd hp (by simp)
  · rw [if_neg h1] at hp
    by_cases h2 : (0.1 : ℚ) < |meanDiff p.2|
    · rw [if_pos h2] at hp
      obtain rfl := Option.some.inj hp
      constructor
      · show (0 : ℚ) ≤ min 1 (|meanDiff p.2| * 2)
        exact le_min (by norm_num) (by positivity)
      · show min 1 (|meanDiff p.2| * 2) ≤ (1 : ℚ)
        exact min_le_left _ _
    · rw [if_neg h2] at hp
      exact absurd hp (by simp)

/-- All factor scores assembled by calculate_risk land in [0, 1] provided
the optional signal quality score does (the schema bound). -/
theorem riskFactorsOf_mem_unit (r : RiskScoringRequest)
    (hq : match r.signalQualityScore with
          | some q => 0 ≤ q ∧ q ≤ 1
          | none => True) :
    ∀ f ∈ riskFactorsOf r, 0 ≤ f.factorScore ∧ f.factorScore ≤ 1 := by
  intro f hf
  simp only [riskFactorsOf, List.mem_append] at hf
  rcases hf with ((hf | hf) | hf) | hf
  · exact analyzeVitalMetrics_mem_unit _ _ _ f hf
  · rcases hfl : r.anomalyFlags with _ | fl
    · rw [hfl] at hf
      simp at hf
    · rcases fl with _ | ⟨g, gs⟩
      · rw [hfl] at hf
        simp at hf
      · rw [hfl] at hf
        exact analyzeAnomalyFlags_mem_unit _ f hf
  · rcases hs : r.signalQualityScore with _ | q
    · rw [hs] at hf
      simp at hf
    · rw [hs] at hf
      rw [hs] at hq
      simp at hf
      subst hf
      constructor
      · show (0 : ℚ) ≤ 1 - q
        linarith [hq.2]
      · show (1 : ℚ) - q ≤ 1
        linarith [hq.1]
  · rcases hh : r.historicalTrends with _ | ht
    · rw [hh] at hf
      simp at hf
    · rcases ht with _ | ⟨p, ps⟩
      · rw [hh] at hf
        simp at hf
      · rw [hh] at hf
        exact analyzeTrends_mem_unit _ f hf

/-- Shows _calculate_overall_risk_score lands in [0, 1]. -/
theorem overallRiskScore_mem_unit (factors : List RiskFactor) :
    0 ≤ overallRiskScore factors ∧ overallRiskScore factors ≤ 1 := by
  simp only [overallRiskScore]
  split_ifs
  · norm_num
  · exact ⟨clamp01_nonneg _, clamp01_le_one _⟩
  · norm_num

/-- Shows _calculate_confidence lands in [0, 1]. -/
theorem calcConfidence_mem_unit (factors : List RiskFactor) (r : RiskScoringRequest) :
    0 ≤ calcConfidence factors r ∧ calcConfidence factors r ≤ 1 := by
  simp only [calcConfidence]
  exact ⟨clamp01_nonneg _, clamp01_le_one _⟩

/-- C6: for every risk request whose optional signal quality score obeys
its schema bound, every produced factor score, the overall risk score and
the response confidence lie in [0, 1]. -/
theorem claim_C6_scores_in_unit_interval (now : ℚ) (r : RiskScoringRequest)
    (hq : match r.signalQualityScore with
          | some q => 0 ≤ q ∧ q ≤ 1
          | none => True) :
    (∀ f ∈ (calcRisk now r).riskFactors, 0 ≤ f.factorScore ∧ f.factorScore ≤ 1) ∧
    (0 ≤ (calcRisk now r).overallRiskScore ∧ (calcRisk now r).overallRiskScore ≤ 1) ∧
    (0 ≤ (calcRisk now r).confidence ∧ (calcRisk now r).confidence ≤ 1) := by
  refine ⟨fun f hf => riskFactorsOf_mem_unit r hq f hf,
    overallRiskScore_mem_unit _, calcConfidence_mem_unit _ _⟩

/-- Witness for C6: the spec scenario request. -/
theorem claim_C6_scores_in_unit_interval_witness :
    (0 ≤ (calcRisk 0 specScenarioRiskRequest).overallRiskScore ∧
      (calcRisk 0 specScenarioRiskRequest).overallRiskScore ≤ 1) ∧
    (0 ≤ (calcRisk 0 specScenarioRiskRequest).confidence ∧
      (calcRisk 0 specScenarioRiskRequest).confidence ≤ 1) :=
  ⟨(claim_C6_scores_in_unit_interval 0 specScenarioRiskRequest
      ⟨by norm_num, by norm_num⟩).2.1,
   (claim_C6_scores_in_unit_interval 0 specScenarioRiskRequest
      ⟨by norm_num, by norm_num⟩).2.2⟩

/-- The outlier list of one metric is in ascending timestamp-index order. -/
theorem detectOutliers_sorted (t : AlertThresholds) (metricName : String)
    (bMean bStd : ℚ) (values : List ℚ) :
    (detectOutliers t metricName bMean bStd values).Pairwise fun a b => a.idx < b.idx := by
  rw [detectOutliers, List.pairwise_filterMap]
  refine (List.pairwise_lt_range values.length).imp ?_
  intro i j hij x hx y hy
  rw [Option.mem_def] at hx hy
  rw [outlierAt_idx hx, outlierAt_idx hy]
  exact hij

/-- The trend-anomaly list of one metric is in ascending timestamp-index
order. -/
theorem detectTrendAnomalies_sorted (t : AlertThresholds) (metricName : String)
    (bMean : ℚ) (values : List ℚ) :
    (detectTrendAnomalies t metricName bMean values).Pairwise fun a b => a.idx < b.idx := by
  rw [detectTrendAnomalies]
  split_ifs
  · exact List.Pairwise.nil
  · rw [List.pairwise_filterMap]
    refine (List.pairwise_lt_range _).imp ?_
    intro i j hij x hx y hy
    rw [Option.mem_def] at hx hy
    rw [trendAt_idx hx, trendAt_idx hy]
    exact Nat.add_lt_add_right hij _

/-- Baseline resolution of metric "a" of the C5 request. -/
theorem resolveBaseline_exC5_a :
    resolveBaseline zeroStd exC5Request.baselineStats "a" [0, 0, 0, 10, 10] = (10, 100) := rfl

/-- Baseline resolution of metric "b" of the C5 request. -/
theorem resolveBaseline_exC5_b :
    resolveBaseline zeroStd exC5Request.baselineStats "b" [0, 0, 100] = (0, 1) := rfl

/-- The C5 request has no heart_rate series, so no cross-metric anomalies. -/
theorem crossMetric_exC5 :
    detectCrossMetricAnomalies [("a", [0, 0, 0, 10, 10]), ("b", [0, 0, 100])] = [] := rfl

/-- Metric "a" of the C5 request has no statistical outliers (all z-scores
are at most 0.1). -/
theorem detectOutliers_exC5_a :
    detectOutliers defaultAlertThresholds "a" 10 100 [0, 0, 0, 10, 10] = [] := by
  norm_num [detectOutliers, outlierAt, zscoreAt, outlierSeverity, outlierConfidence,
    defaultAlertThresholds, List.filterMap, List.range_succ, min_def, abs, max_def]

/-- Metric "b" of the C5 request has exactly one statistical outlier, at
index 2 (value 100, z = 100). -/
theorem detectOutliers_exC5_b :
    detectOutliers defaultAlertThresholds "b" 0 1 [0, 0, 100] =
      [{ anomalyType := .unknown, severity := 1, confidence := 1, idx := 2,
         affectedMetrics := ["b"] }] := by
  norm_num [detectOutliers, outlierAt, zscoreAt, outlierSeverity, outlierConfidence,
    defaultAlertThresholds, List.filterMap, List.range_succ, min_def,
    show determineAnomalyType "b" = .unknown from rfl]

/-- Metric "a" of the C5 request has exactly two trend anomalies, at
timestamp indices 3 and 4 (window 2, rolling means [0, 0, 5, 10]). -/
theorem detectTrendAnomalies_exC5_a :
    detectTrendAnomalies defaultAlertThresholds "a" 10 [0, 0, 0, 10, 10] =
      [{ anomalyType := .patternDeviation, severity := 1, confidence := 0.9, idx := 3,
         affectedMetrics := ["a"] },
       { anomalyType := .patternDeviation, severity := 1, confidence := 0.9, idx := 4,
         affectedMetrics := ["a"] }] := by
  norm_num [detectTrendAnomalies, windowMeans, trendAt, trendSeverity, trendConfidence,
    defaultAlertThresholds, List.filterMap, List.range_succ, min_def, abs, max_def]

/-- Per-metric anomalies of metric "a" of the C5 request: no outliers, two
trend anomalies. -/
theorem detectMetricAnomalies_exC5_a :
    detectMetricAnomalies zeroStd defaultAlertThresholds exC5Request.baselineStats
      "a" [0, 0, 0, 10, 10] =
      [{ anomalyType := .patternDeviation, severity := 1, confidence := 0.9, idx := 3,
         affectedMetrics := ["a"] },
       { anomalyType := .patternDeviation, severity := 1, confidence := 0.9, idx := 4,
         affectedMetrics := ["a"] }] := by
  rw [detectMetricAnomalies, if_neg (by norm_num), resolveBaseline_exC5_a]
  norm_num [detectOutliers_exC5_a, detectTrendAnomalies_exC5_a]

/-- Per-metric anomalies of metric "b" of the C5 request: one outlier, no
trend anomalies (series shorter than 5). -/
theorem detectMetricAnomalies_exC5_b :
    detectMetricAnomalies zeroStd defaultAlertThresholds exC5Request.baselineStats
      "b" [0, 0, 100] =
      [{ anomalyType := .unknown, severity := 1, confidence := 1, idx := 2,
         affectedMetrics := ["b"] }] := by
  rw [detectMetricAnomalies, if_neg (by norm_num), resolveBaseline_exC5_b]
  norm_num [detectOutliers_exC5_b]

/-- The anomaly list the service computes on the C5 request: metric "a"'s
trend anomalies come before metric "b"'s outlier. -/
theorem detectAnomalies_exC5_list :
    (detectAnomalies zeroStd defaultAlertThresholds 0 exC5Request).anomalies =
      [{ anomalyType := .patternDeviation, severity := 1, confidence := 0.9, idx := 3,
         affectedMetrics := ["a"] },
       { anomalyType := .patternDeviation, severity := 1, confidence := 0.9, idx := 4,
         affectedMetrics := ["a"] },
       { anomalyType := .unknown, severity := 1, confidence := 1, idx := 2,
         affectedMetrics := ["b"] }] := by
  simp only [detectAnomalies]
  rw [show exC5Request.timeSeriesData = [("a", [0, 0, 0, 10, 10]), ("b", [0, 0, 100])]
    from rfl]
  simp only [List.map_cons, List.map_nil, List.flatten_cons, List.flatten_nil]
  rw [detectMetricAnomalies_exC5_a, detectMetricAnomalies_exC5_b, crossMetric_exC5]
  simp

/-- The order the claim asserts on the C5 request: all outliers first. -/
theorem claimOrdered_exC5_list :
    claimOrderedAnomaliesC5 zeroStd defaultAlertThresholds exC5Request =
      [{ anomalyType := .unknown, severity := 1, confidence := 1, idx := 2,
         affectedMetrics := ["b"] },
       { anomalyType := .patternDeviation, severity := 1, confidence := 0.9, idx := 3,
         affectedMetrics := ["a"] },
       { anomalyType := .patternDeviation, severity := 1, confidence := 0.9, idx := 4,
         affectedMetrics := ["a"] }] := by
  simp only [claimOrderedAnomaliesC5]
  rw [show exC5Request.timeSeriesData = [("a", [0, 0, 0, 10, 10]), ("b", [0, 0, 100])]
    from rfl]
  simp only [List.map_cons, List.map_nil, List.flatten_cons, List.flatten_nil]
  rw [resolveBaseline_exC5_a, resolveBaseline_exC5_b, crossMetric_exC5]
  norm_num [detectOutliers_exC5_a, detectOutliers_exC5_b, detectTrendAnomalies_exC5_a]

/-- C5 counterexample: on a request with a trend anomaly in the first
metric and an outlier in the second, the service's list interleaves per
metric (first metric's trend anomalies before the second metric's outlier),
so it differs from the claimed all-outliers-first order. -/
theorem claim_C5_anomaly_order_counterexample :
    (detectAnomalies zeroStd defaultAlertThresholds 0 exC5Request).anomalies ≠
      claimOrderedAnomaliesC5 zeroStd defaultAlertThresholds exC5Request := by
  rw [detectAnomalies_exC5_list, claimOrdered_exC5_list]
  intro hc
  simp only [List.cons.injEq] at hc
  have := congrArg AnomalyResult.anomalyType hc.1
  exact absurd this (by decide)

/-- C5 (amended): the anomalies list is, for each metric in input-iteration
order, that metric's statistical outliers immediately followed by that
metric's trend anomalies (present only for series of length at least 5),
and then the cross-metric anomalies; within each metric both detection
lists are in ascending timestamp-index order. -/
theorem claim_C5_anomaly_order_amended (stdFn : List ℚ → ℚ) (t : AlertThresholds)
    (now : ℚ) (r : AnomalyDetectionRequest) :
    ((detectAnomalies stdFn t now r).anomalies =
      (r.timeSeriesData.map fun p =>
        detectMetricAnomalies stdFn t r.baselineStats p.1 p.2).flatten ++
      detectCrossMetricAnomalies r.timeSeriesData) ∧
    (∀ (metricName : String) (values : List ℚ), 3 ≤ values.length →
      detectMetricAnomalies stdFn t r.baselineStats metricName values =
        detectOutliers t metricName
          (resolveBaseline stdFn r.baselineStats metricName values).1
          (resolveBaseline stdFn r.baselineStats metricName values).2 values ++
        (if 5 ≤ values.length then
          detectTrendAnomalies t metricName
            (resolveBaseline stdFn r.baselineStats metricName values).1 values
        else [])) ∧
    (∀ (metricName : String) (bMean bStd : ℚ) (values : List ℚ),
      (detectOutliers t metricName bMean bStd values).Pairwise
        fun a b => a.idx < b.idx) ∧
    (∀ (metricName : String) (bMean : ℚ) (values : List ℚ),
      (detectTrendAnomalies t metricName bMean values).Pairwise
        fun a b => a.idx < b.idx) := by
  refine ⟨rfl, fun metricName values h3 => ?_,
    fun m bm bs v => detectOutliers_sorted t m bm bs v,
    fun m bm v => detectTrendAnomalies_sorted t m bm v⟩
  rw [detectMetricAnomalies, if_neg (not_lt.mpr h3)]

/-- Witness for C5 (amended) on metric "b" of the concrete request. -/
theorem claim_C5_anomaly_order_amended_witness :
    detectMetricAnomalies zeroStd defaultAlertThresholds exC5Request.baselineStats
      "b" [0, 0, 100] =
      detectOutliers defaultAlertThresholds "b"
        (resolveBaseline zeroStd exC5Request.baselineStats "b" [0, 0, 100]).1
        (resolveBaseline zeroStd exC5Request.baselineStats "b" [0, 0, 100]).2
        [0, 0, 100] ++
      (if 5 ≤ ([0, 0, 100] : List ℚ).length then
        detectTrendAnomalies defaultAlertThresholds "b"
          (resolveBaseline zeroStd exC5Request.baselineStats "b" [0, 0, 100]).1
          [0, 0, 100]
      else []) :=
  (claim_C5_anomaly_order_amended zeroStd defaultAlertThresholds 0 exC5Request).2.1
    "b" [0, 0, 100] (by norm_num)
